import Mathlib

/-!
Shallow embedding of `mysite/mysite/views.py` (crop_yield_analysis).

Conventions of the embedding:
* Python floats are modelled as rationals (`ℚ`); the form strings the handler
  parses are finite decimal literals, which rationals represent exactly.
* A raised Python exception is `Except.error` carrying the exception text.
* `request.POST.get(k)` is `Option String` (`none` when the field is absent).
* The pickled scikit-learn model and the Groq client are opaque callables,
  modelled as functions into `Except`.
* The module-level globals `_model` / `_model_load_error` are threaded
  explicitly as a `LoaderState`; `getModel` additionally reports whether the
  call attempted to read the artifact file, so that load-attempt counting is
  expressible.
-/

namespace CropYield

/-- Values stored in one column of the single-row pandas DataFrame built by
`predict_yield`: text form fields (possibly absent), numbers, or booleans. -/
inductive Value where
  | str : Option String → Value
  | num : ℚ → Value
  | bool : Bool → Value
deriving DecidableEq, Repr

/-- A pandas DataFrame, modelled as a list of rows, each row the ordered list of
(column name, value) pairs of the dict literal that built it. -/
abbrev DataFrame := List (List (String × Value))

/-- The deserialized prediction model: `model.predict` takes a DataFrame batch
and either returns one number per row or raises (unknown category, shape
mismatch, ...). -/
abbrev Model := DataFrame → Except String (List ℚ)

/-- The Groq client handle: `client.chat.completions.create` followed by the
`choices[0].message.content` extraction, modelled as a function from the prompt
to the completion text, or to a raised exception. -/
abbrev AIClient := String → Except String String

/-- The pair of module-level globals `_model` and `_model_load_error`. -/
structure LoaderState where
  model : Option Model
  load_error : Option String

/-- Global state at process start: `_model = None`, `_model_load_error = None`. -/
def initState : LoaderState := { model := none, load_error := none }

/-- Shallow embedding of `_get_model`. The argument `load` is the behavior of
`joblib.load(MODEL_PATH)` at this call (deserialized model, or raised
exception). Returns the updated globals, the returned pair
`(_model, _model_load_error)`, and whether this call attempted a load (i.e.
actually read the artifact file). -/
def getModel (load : Except String Model) (st : LoaderState) :
    LoaderState × (Option Model × Option String) × Bool :=
  match st.model, st.load_error with
  | none, none =>
    match load with
    | .ok m => ({ model := some m, load_error := none }, (some m, none), true)
    | .error e => ({ model := none, load_error := some e }, (none, some e), true)
  | _, _ => (st, (st.model, st.load_error), false)

/-- Run a sequence of `_get_model` calls (one per request), each with the load
behavior the file would exhibit at that moment, and count the load attempts. -/
def runCalls (loads : List (Except String Model)) (st : LoaderState) :
    LoaderState × ℕ :=
  match loads with
  | [] => (st, 0)
  | l :: ls =>
    let c := getModel l st
    let rest := runCalls ls c.1
    (rest.1, (if c.2.2 then 1 else 0) + rest.2)

/-- Shallow embedding of `_local_recommendations`: three short fallback
recommendation lines, joined by newlines (the source truncates with
`recs[:3]` before joining). -/
def _local_recommendations (region crop soil_type : Option String)
    (rainfall temperature : ℚ) (fertilizer_used irrigation_used : Bool)
    (weather : Option String) (days_to_harvest prediction : ℚ) : String :=
  let recs : List String :=
    [ if !fertilizer_used then
        "Do a soil test and apply balanced fertilizer as per results."
      else
        "Ensure fertilizer timing and rates match crop needs.",
      if irrigation_used then
        "Optimize irrigation schedule to avoid water stress."
      else
        "Consider small-scale irrigation (drip/mulch) to conserve moisture.",
      if rainfall < 250 then
        "Use mulching or cover crops to retain soil moisture during dry spells."
      else
        "Monitor drainage and avoid waterlogging; improve soil structure if needed." ]
  String.intercalate "\n" (recs.take 3)

/-- Split a leading run of decimal digits off a character list. -/
def takeDigits : List Char → List Char × List Char
  | [] => ([], [])
  | c :: cs =>
    if c.isDigit then
      let p := takeDigits cs
      (c :: p.1, p.2)
    else ([], c :: cs)

/-- Numeric value of a digit run. -/
def digitsVal (ds : List Char) : ℕ :=
  ds.foldl (fun a c => 10 * a + (c.toNat - Char.toNat '0')) 0

/-- Mantissa of a float literal: `digits`, `digits.digits`, `.digits` or
`digits.`; at least one digit overall. Returns its value and the rest. -/
def parseMantissa (cs : List Char) : Option (ℚ × List Char) :=
  let ip := takeDigits cs
  match ip.2 with
  | '.' :: rest2 =>
    let fp := takeDigits rest2
    if ip.1.isEmpty && fp.1.isEmpty then none
    else some ((digitsVal ip.1 : ℚ) + (digitsVal fp.1 : ℚ) / 10 ^ fp.1.length, fp.2)
  | _ => if ip.1.isEmpty then none else some ((digitsVal ip.1 : ℚ), ip.2)

/-- Optional exponent part `e[+-]digits` of a float literal. Returns the signed
exponent (0 when absent) and the rest; fails on a bare `e`. -/
def parseExp (cs : List Char) : Option (ℤ × List Char) :=
  match cs with
  | 'e' :: rest | 'E' :: rest =>
    let sr : ℤ × List Char :=
      match rest with
      | '+' :: r => (1, r)
      | '-' :: r => (-1, r)
      | r => (1, r)
    let ds := takeDigits sr.2
    if ds.1.isEmpty then none else some (sr.1 * (digitsVal ds.1 : ℤ), ds.2)
  | _ => some (0, cs)

/-- Scale a mantissa by a signed power of ten. -/
def scale10 (m : ℚ) (e : ℤ) : ℚ :=
  if 0 ≤ e then m * 10 ^ e.toNat else m / 10 ^ (-e).toNat

/-- Strip whitespace from both ends of a character list, as Python's `strip`. -/
def stripWS (cs : List Char) : List Char :=
  ((cs.dropWhile Char.isWhitespace).reverse.dropWhile Char.isWhitespace).reverse

/-- Python `s.strip()`. -/
def pyStrip (s : String) : String := String.mk (stripWS s.toList)

/-- Model of Python `float(s)` on a finite decimal literal: surrounding
whitespace is stripped, then an optional sign, a mantissa and an optional
exponent must consume the whole string. Returns `none` (ValueError) otherwise. -/
def pyFloatStr (s : String) : Option ℚ :=
  let cs := stripWS s.toList
  let sc : ℚ × List Char :=
    match cs with
    | '+' :: r => (1, r)
    | '-' :: r => (-1, r)
    | r => (1, r)
  match parseMantissa sc.2 with
  | none => none
  | some mr =>
    match parseExp mr.2 with
    | none => none
    | some er =>
      if er.2.isEmpty then some (sc.1 * scale10 mr.1 er.1) else none

/-- Model of `float(request.POST.get(k))`: an absent field is `None`, on which
`float` raises TypeError; a string that is not a float literal raises
ValueError. The error strings follow CPython's messages. -/
def pyFloat (v : Option String) : Except String ℚ :=
  match v with
  | none => .error "float() argument must be a string or a real number, not 'NoneType'"
  | some s =>
    match pyFloatStr s with
    | some q => .ok q
    | none => .error ("could not convert string to float: '" ++ s ++ "'")

/-- Embedding of the boolean form-field coercion
`request.POST.get(name) == 'Yes'`: case-sensitive comparison with the literal,
where an absent field compares unequal. -/
def parseYes (v : Option String) : Bool := v == some "Yes"

/-- The raw POST form as the handler reads it: `request.POST.get(k)` yields
`none` when field `k` is absent from the submission. -/
structure FormData where
  region : Option String
  crop : Option String
  soil_type : Option String
  rainfall : Option String
  temperature : Option String
  fertilizer_used : Option String
  irrigation_used : Option String
  weather : Option String
  days_to_harvest : Option String

/-- The typed record bound by the parsing block of `predict_yield` (the spec
calls it FieldObservation). -/
structure Obs where
  region : Option String
  crop : Option String
  soil_type : Option String
  rainfall : ℚ
  temperature : ℚ
  fertilizer_used : Bool
  irrigation_used : Bool
  weather : Option String
  days_to_harvest : ℚ
deriving DecidableEq

deriving instance DecidableEq for Except

/-- The field-extraction block of `predict_yield`, lines 74-83 of views.py, in
source order: the first raised conversion error aborts the whole block. -/
def parseForm (post : FormData) : Except String Obs :=
  let region := post.region
  let crop := post.crop
  let soil_type := post.soil_type
  match pyFloat post.rainfall with
  | .error e => .error e
  | .ok rainfall =>
    match pyFloat post.temperature with
    | .error e => .error e
    | .ok temperature =>
      let fertilizer_used := parseYes post.fertilizer_used
      let irrigation_used := parseYes post.irrigation_used
      let weather := post.weather
      match pyFloat post.days_to_harvest with
      | .error e => .error e
      | .ok days_to_harvest =>
        .ok { region := region, crop := crop, soil_type := soil_type,
              rainfall := rainfall, temperature := temperature,
              fertilizer_used := fertilizer_used,
              irrigation_used := irrigation_used,
              weather := weather, days_to_harvest := days_to_harvest }

/-- The single-row DataFrame dict literal `input_data` of `predict_yield`. -/
def buildRow (o : Obs) : List (String × Value) :=
  [ ("Region", .str o.region),
    ("Crop", .str o.crop),
    ("Soil_Type", .str o.soil_type),
    ("Rainfall_mm", .num o.rainfall),
    ("Temperature_Celsius", .num o.temperature),
    ("Fertilizer_Used", .bool o.fertilizer_used),
    ("Irrigation_Used", .bool o.irrigation_used),
    ("Weather_Condition", .str o.weather),
    ("Days_to_Harvest", .num o.days_to_harvest) ]

/-- Round to the nearest integer, ties to even, as Python's `round` does. -/
def roundHalfEven (x : ℚ) : ℤ :=
  let f := ⌊x⌋
  if x - f < 1 / 2 then f
  else if 1 / 2 < x - f then f + 1
  else if f % 2 = 0 then f else f + 1

/-- Python `round(x, 2)`: round to two decimal places, ties to even. -/
def pyRound2 (x : ℚ) : ℚ := (roundHalfEven (x * 100) : ℚ) / 100

/-- The prediction line `prediction = round(model.predict(input_data)[0], 2)`:
one batch-predict call on the single-row DataFrame, indexing `[0]` into the
returned batch (an IndexError if it is empty), then rounding to two decimal
places. A raised exception propagates. -/
def predictStep (model : Model) (o : Obs) : Except String ℚ :=
  match model [buildRow o] with
  | .error e => .error e
  | .ok ys =>
    match ys.head? with
    | none => .error "index 0 is out of bounds for axis 0 with size 0"
    | some y => .ok (pyRound2 y)

/-- Python string interpolation of an optional text field (`None` when absent). -/
def pyStr : Option String → String
  | none => "None"
  | some s => s

/-- Python string interpolation of a boolean. -/
def pyBool (b : Bool) : String := if b then "True" else "False"

/-- Interpolation of a numeric field into the prompt. -/
def pyNum (q : ℚ) : String := toString q

/-- The f-string `prompt` of `predict_yield`: the fixed instruction text with
the nine observation fields and the predicted yield interpolated into the
Field Data section. -/
def buildPrompt (o : Obs) (prediction : ℚ) : String :=
  String.intercalate "\n"
    [ "",
      "            You are an expert agricultural scientist and crop advisor with field experience in small-to-medium farms. ",
      "            Your task is to generate a **thorough, step-by-step plan** to increase the yield of the crop described below.",
      "",
      "            Guidelines:",
      "            1. Provide exactly **5 numbered recommendations**, ordered by impact (most effective first).",
      "            2. Each recommendation must be **3–5 sentences** long and include:",
      "            - specific actions (e.g., apply 120 kg/ha NPK 15:15:15, irrigate every 6 days for 3 hours)",
      "            - measurable or observable indicators (e.g., leaf greenness, moisture level, pest threshold)",
      "            - recommended timing (days/weeks before harvest)",
      "            - a low-cost or organic alternative if modern input isn’t available",
      "            3. Each point should address a different domain: soil nutrition, irrigation, pest/disease management, weather adaptation, and harvest/storage.",
      "            4. End with a clearly labeled section:",
      "            **Immediate 48-hour Action Checklist:**",
      "            - Include 3 fast checks or small actions the farmer should take right now to stabilize crop health or prevent loss.",
      "            - Add one safety reminder for handling fertilizer, tools, or pesticides.",
      "            5. Keep tone practical, farmer-friendly, and regionally adaptable. Use short, direct sentences and avoid jargon unless explained.",
      "",
      "            Field Data:",
      "            - Region: " ++ pyStr o.region,
      "            - Crop: " ++ pyStr o.crop,
      "            - Soil Type: " ++ pyStr o.soil_type,
      "            - Rainfall: " ++ pyNum o.rainfall ++ " mm",
      "            - Temperature: " ++ pyNum o.temperature ++ " °C",
      "            - Fertilizer Used: " ++ pyBool o.fertilizer_used,
      "            - Irrigation Used: " ++ pyBool o.irrigation_used,
      "            - Weather: " ++ pyStr o.weather,
      "            - Days to Harvest: " ++ pyNum o.days_to_harvest,
      "            - Predicted Yield: " ++ pyNum prediction ++ " tons/ha",
      "",
      "            Output format:",
      "            1) Detailed numbered list (1–5)",
      "            2) Section: \"Immediate 48-hour Action Checklist\"",
      "            Ensure formatting and numbering are clean and clear for direct display on a web app.",
      "            " ]

/-- The recommendation branch of `predict_yield`, lines 137-149: with no client
use the local fallback; otherwise call the Groq API, strip the completion, and
on any raised exception fall back to the local text. The second component
counts the remote calls made (0 or 1). -/
def recommendStep (client : Option AIClient) (prompt : String)
    (fallback : String) : String × ℕ :=
  match client with
  | none => (fallback, 0)
  | some c =>
    match c prompt with
    | .ok content => (pyStrip content, 1)
    | .error _ => (fallback, 1)

/-- HTTP request method, as `request.method` distinguishes it. -/
inductive Method where
  | GET
  | POST
deriving DecidableEq

/-- The template context handed to `render(request, 'predict.html', ...)`. -/
structure Response where
  prediction : Option ℚ
  recommendations : Option String
  error_message : Option String
deriving DecidableEq

/-- Shallow embedding of the view `predict_yield`. `load` is the behavior
`joblib.load` would exhibit if called during this request, `client` the
module-level Groq client (`none` when `GROQ_API_KEY` is unset or client
construction failed), `st` the loader globals when the request arrives.
Returns the updated globals and the rendered template context. -/
def predict_yield (load : Except String Model) (client : Option AIClient)
    (st : LoaderState) (method : Method) (post : FormData) :
    LoaderState × Response :=
  let g := getModel load st
  let st' := g.1
  let modelOpt := g.2.1.1
  let load_error := g.2.1.2
  match load_error with
  | some e =>
    (st', { prediction := none, recommendations := none,
            error_message := some ("Model load error: " ++ e) })
  | none =>
    match method with
    | .GET =>
      (st', { prediction := none, recommendations := none, error_message := none })
    | .POST =>
      match parseForm post with
      | .error e =>
        (st', { prediction := none, recommendations := none,
                error_message := some ("Error: " ++ e) })
      | .ok obs =>
        match modelOpt with
        | none =>
          -- unreachable when the loader has run: with no load error the model
          -- is present; `None.predict` would raise an AttributeError caught by
          -- the enclosing `except` block.
          (st', { prediction := none, recommendations := none,
                  error_message := some ("Error: " ++ "'NoneType' object has no attribute 'predict'") })
        | some model =>
          match predictStep model obs with
          | .error e =>
            (st', { prediction := none, recommendations := none,
                    error_message := some ("Error: " ++ e) })
          | .ok prediction =>
            let prompt := buildPrompt obs prediction
            let fallback := _local_recommendations obs.region obs.crop
              obs.soil_type obs.rainfall obs.temperature obs.fertilizer_used
              obs.irrigation_used obs.weather obs.days_to_harvest prediction
            let rec_ := recommendStep client prompt fallback
            (st', { prediction := some prediction,
                    recommendations := some rec_.1, error_message := none })

/-! ## Helper lemmas -/

/-- Evaluation of `float` on the example rainfall string. -/
lemma pyFloat_300 : pyFloat (some "300") = .ok 300 := by
  simp +decide [pyFloat, pyFloatStr, stripWS, takeDigits, digitsVal,
    parseMantissa, parseExp, scale10]

/-- Evaluation of `float` on the example temperature string. -/
lemma pyFloat_22 : pyFloat (some "22") = .ok 22 := by
  simp +decide [pyFloat, pyFloatStr, stripWS, takeDigits, digitsVal,
    parseMantissa, parseExp, scale10]

/-- Evaluation of `float` on the example days-to-harvest string. -/
lemma pyFloat_90 : pyFloat (some "90") = .ok 90 := by
  simp +decide [pyFloat, pyFloatStr, stripWS, takeDigits, digitsVal,
    parseMantissa, parseExp, scale10]

/-- A non-numeric string raises ValueError in `float`. -/
lemma pyFloat_abc :
    pyFloat (some "abc") = .error "could not convert string to float: 'abc'" := by
  simp +decide [pyFloat, pyFloatStr, stripWS, takeDigits, digitsVal,
    parseMantissa, parseExp, scale10]

/-- Parsing the spec's end-to-end example form. -/
lemma parseForm_example :
    parseForm
      { region := some "North", crop := some "Wheat", soil_type := some "Loam",
        rainfall := some "300", temperature := some "22",
        fertilizer_used := some "Yes", irrigation_used := some "No",
        weather := some "Sunny", days_to_harvest := some "90" } =
      .ok { region := some "North", crop := some "Wheat",
            soil_type := some "Loam", rainfall := 300, temperature := 22,
            fertilizer_used := true, irrigation_used := false,
            weather := some "Sunny", days_to_harvest := 90 } := by
  simp +decide [parseForm, pyFloat_300, pyFloat_22, pyFloat_90, parseYes]

/-- Parsing a form whose rainfall field is not numeric. -/
lemma parseForm_abc :
    parseForm
      { region := none, crop := none, soil_type := none,
        rainfall := some "abc", temperature := some "22",
        fertilizer_used := none, irrigation_used := none,
        weather := none, days_to_harvest := some "90" } =
      .error "could not convert string to float: 'abc'" := by
  simp [parseForm, pyFloat_abc]

/-- Once either global is set, `_get_model` returns the cached pair unchanged,
makes no load attempt, and ignores what the file would yield. -/
lemma getModel_cached (load : Except String Model) (st : LoaderState)
    (h : st.model.isSome ∨ st.load_error.isSome) :
    getModel load st = (st, (st.model, st.load_error), false) := by
  obtain ⟨m, e⟩ := st
  rcases m with _ | m <;> rcases e with _ | e <;> first | rfl | simp at h

/-- From a settled loader state, a whole sequence of `_get_model` calls makes
no load attempt and leaves the state unchanged. -/
lemma runCalls_cached (loads : List (Except String Model)) (st : LoaderState)
    (h : st.model.isSome ∨ st.load_error.isSome) :
    runCalls loads st = (st, 0) := by
  induction loads with
  | nil => rfl
  | cons l ls ih => simp [runCalls, getModel_cached l st h, ih]

/-! ## Claims -/

/-- C1: `_get_model` makes at most one load attempt per process: over any
sequence of calls from the initial globals at most one attempts a load; a
failing first call caches the error; and from an error state every call
returns the cached error, attempts no load, and is independent of what
reloading the file would now yield. -/
theorem getModel_single_attempt_sticky_failure :
    (∀ loads : List (Except String Model), (runCalls loads initState).2 ≤ 1) ∧
    (∀ e : String,
      getModel (.error e) initState =
        ({ model := none, load_error := some e }, (none, some e), true)) ∧
    (∀ (load : Except String Model) (m : Option Model) (e : String),
      getModel load { model := m, load_error := some e } =
        ({ model := m, load_error := some e }, (m, some e), false)) := by
  refine ⟨?_, ?_, ?_⟩
  · intro loads
    cases loads with
    | nil => simp [runCalls]
    | cons l ls =>
      cases l with
      | ok m =>
        have h1 : getModel (.ok m) initState =
            ({ model := some m, load_error := none }, (some m, none), true) := rfl
        have h2 := runCalls_cached ls { model := some m, load_error := none }
          (Or.inl rfl)
        simp [runCalls, h1, h2]
      | error e =>
        have h1 : getModel (.error e) initState =
            ({ model := none, load_error := some e }, (none, some e), true) := rfl
        have h2 := runCalls_cached ls { model := none, load_error := some e }
          (Or.inr rfl)
        simp [runCalls, h1, h2]
  · intro e
    rfl
  · intro load m e
    cases m <;> rfl

/-- C2: `_local_recommendations` depends only on the fertilizer flag, the
irrigation flag and the rainfall, and always returns exactly three
newline-separated lines: the fertilizer line chosen by the flag, the
irrigation line chosen by the flag, and the rainfall line: mulching/cover
crops below 250 mm, drainage monitoring at 250 mm and above. -/
theorem local_recommendations_pure_three_lines
    (r₁ c₁ s₁ : Option String) (t₁ : ℚ) (w₁ : Option String) (d₁ p₁ : ℚ)
    (r₂ c₂ s₂ : Option String) (t₂ : ℚ) (w₂ : Option String) (d₂ p₂ : ℚ)
    (rain : ℚ) (f i : Bool) :
    _local_recommendations r₁ c₁ s₁ rain t₁ f i w₁ d₁ p₁ =
      _local_recommendations r₂ c₂ s₂ rain t₂ f i w₂ d₂ p₂ ∧
    _local_recommendations r₁ c₁ s₁ rain t₁ f i w₁ d₁ p₁ =
      (if f then "Ensure fertilizer timing and rates match crop needs."
        else "Do a soil test and apply balanced fertilizer as per results.") ++ "\n" ++
      (if i then "Optimize irrigation schedule to avoid water stress."
        else "Consider small-scale irrigation (drip/mulch) to conserve moisture.") ++ "\n" ++
      (if rain < 250 then
        "Use mulching or cover crops to retain soil moisture during dry spells."
        else
        "Monitor drainage and avoid waterlogging; improve soil structure if needed.") := by
  constructor
  · rfl
  · cases f <;> cases i <;> by_cases h : rain < 250 <;>
      simp [_local_recommendations, h] <;> rfl

/-- C3: a boolean form field parses to true exactly when its raw value is the
case-sensitive literal string Yes; No, the empty string, a lowercase yes, and
an absent field all parse to false. -/
theorem parseYes_iff_yes_literal :
    (∀ v : Option String, parseYes v = true ↔ v = some "Yes") ∧
    parseYes (some "No") = false ∧ parseYes (some "") = false ∧
    parseYes (some "yes") = false ∧ parseYes none = false := by
  refine ⟨?_, by decide, by decide, by decide, by decide⟩
  intro v
  simp [parseYes]

/-- C4: a non-numeric (or absent) rainfall, temperature or days-to-harvest
field makes the whole parse fail with the first conversion error, and a failed
parse yields the error response with no partial result, independent of the
model (so no prediction is attempted); conversely when all three fields are
numeric the parse succeeds with exactly those values in the observation. -/
theorem parse_failure_aborts_success_exact :
    (∀ (post : FormData) (r t d : ℚ),
      pyFloat post.rainfall = .ok r → pyFloat post.temperature = .ok t →
      pyFloat post.days_to_harvest = .ok d →
      parseForm post = .ok
        { region := post.region, crop := post.crop, soil_type := post.soil_type,
          rainfall := r, temperature := t,
          fertilizer_used := parseYes post.fertilizer_used,
          irrigation_used := parseYes post.irrigation_used,
          weather := post.weather, days_to_harvest := d }) ∧
    (∀ (post : FormData) (e : String),
      pyFloat post.rainfall = .error e → parseForm post = .error e) ∧
    (∀ (post : FormData) (r : ℚ) (e : String),
      pyFloat post.rainfall = .ok r → pyFloat post.temperature = .error e →
      parseForm post = .error e) ∧
    (∀ (post : FormData) (r t : ℚ) (e : String),
      pyFloat post.rainfall = .ok r → pyFloat post.temperature = .ok t →
      pyFloat post.days_to_harvest = .error e → parseForm post = .error e) ∧
    (∀ (load : Except String Model) (client : Option AIClient) (m : Model)
      (post : FormData) (e : String),
      parseForm post = .error e →
      predict_yield load client { model := some m, load_error := none } .POST post =
        ({ model := some m, load_error := none },
         { prediction := none, recommendations := none,
           error_message := some ("Error: " ++ e) })) := by
  refine ⟨?_, ?_, ?_, ?_, ?_⟩
  · intro post r t d h1 h2 h3
    simp [parseForm, h1, h2, h3]
  · intro post e h1
    simp [parseForm, h1]
  · intro post r e h1 h2
    simp [parseForm, h1, h2]
  · intro post r t e h1 h2 h3
    simp [parseForm, h1, h2, h3]
  · intro load client m post e h
    have hg : getModel load { model := some m, load_error := none } =
        ({ model := some m, load_error := none }, (some m, none), false) := rfl
    simp [predict_yield, hg, h]

/-- Witness for C4: the end-to-end example form parses to exactly its numeric
values, and a form whose rainfall is the non-numeric string abc yields the
error response regardless of the model. -/
theorem parse_failure_aborts_success_exact_witness :
    parseForm
      { region := some "North", crop := some "Wheat", soil_type := some "Loam",
        rainfall := some "300", temperature := some "22",
        fertilizer_used := some "Yes", irrigation_used := some "No",
        weather := some "Sunny", days_to_harvest := some "90" } =
      .ok { region := some "North", crop := some "Wheat",
            soil_type := some "Loam", rainfall := 300, temperature := 22,
            fertilizer_used := true, irrigation_used := false,
            weather := some "Sunny", days_to_harvest := 90 } ∧
    predict_yield (.ok fun _ => .ok [7]) none
      { model := some fun _ => .ok [7], load_error := none } .POST
      { region := none, crop := none, soil_type := none,
        rainfall := some "abc", temperature := some "22",
        fertilizer_used := none, irrigation_used := none,
        weather := none, days_to_harvest := some "90" } =
      ({ model := some fun _ => .ok [7], load_error := none },
       { prediction := none, recommendations := none,
         error_message :=
           some ("Error: " ++ "could not convert string to float: 'abc'") }) :=
  ⟨parse_failure_aborts_success_exact.1 _ 300 22 90 pyFloat_300 pyFloat_22
      pyFloat_90,
   parse_failure_aborts_success_exact.2.2.2.2 _ none _ _
      "could not convert string to float: 'abc'" parseForm_abc⟩

/-- C5: while the cached loader state is an error, the handler returns the
load-error response with null prediction and recommendations, leaves the state
untouched, and does so for GET and POST alike, independently of the submitted
form (so before any field parsing). -/
theorem load_error_short_circuits (load : Except String Model)
    (client : Option AIClient) (m : Option Model) (e : String)
    (method : Method) (post : FormData) :
    predict_yield load client { model := m, load_error := some e } method post =
      ({ model := m, load_error := some e },
       { prediction := none, recommendations := none,
         error_message := some ("Model load error: " ++ e) }) := by
  cases m <;> cases method <;> rfl

/-- C6: the prediction step builds a single-row batch with exactly the nine
training column names, invokes the model's batch predict on it, extracts the
first value and returns it rounded to two decimal places (the result times 100
is an integer); a model exception propagates unchanged. As a Lean function it
is deterministic by construction. -/
theorem predictStep_single_row_rounded (model : Model) (o : Obs) :
    ((buildRow o).map Prod.fst =
      ["Region", "Crop", "Soil_Type", "Rainfall_mm", "Temperature_Celsius",
       "Fertilizer_Used", "Irrigation_Used", "Weather_Condition",
       "Days_to_Harvest"]) ∧
    (∀ (ys : List ℚ) (y : ℚ), model [buildRow o] = .ok ys →
      ys.head? = some y →
      predictStep model o = .ok (pyRound2 y) ∧
        ∃ n : ℤ, pyRound2 y * 100 = (n : ℚ)) ∧
    (∀ e : String, model [buildRow o] = .error e →
      predictStep model o = .error e) := by
  refine ⟨rfl, ?_, ?_⟩
  · intro ys y h1 h2
    refine ⟨by simp [predictStep, h1, h2], roundHalfEven (y * 100), ?_⟩
    rw [pyRound2, div_mul_cancel₀]
    norm_num
  · intro e h
    simp [predictStep, h]

/-- Witness for C6: a constant model returning the single batch value 7 gives
prediction `round(7, 2)`, whose value times 100 is an integer. -/
theorem predictStep_single_row_rounded_witness :
    predictStep (fun _ => .ok [7])
      { region := some "North", crop := some "Wheat", soil_type := some "Loam",
        rainfall := 300, temperature := 22, fertilizer_used := true,
        irrigation_used := false, weather := some "Sunny",
        days_to_harvest := 90 } = .ok (pyRound2 7) ∧
    ∃ n : ℤ, pyRound2 7 * 100 = (n : ℚ) :=
  (predictStep_single_row_rounded (fun _ => .ok [7]) _).2.1 [7] 7 rfl rfl

/-- C7: with no configured client the recommendation branch returns the local
fallback and makes zero remote calls; with a configured client whose call
raises, it returns the fallback after the one failed call; and at the handler
level an AI failure on a successfully predicted request still renders the
prediction with the heuristic text and a null error message (the failure is
never surfaced). -/
theorem recommend_fallback_on_missing_client_or_failure :
    (∀ prompt fallback : String, recommendStep none prompt fallback = (fallback, 0)) ∧
    (∀ (c : AIClient) (prompt fallback e : String), c prompt = .error e →
      recommendStep (some c) prompt fallback = (fallback, 1)) ∧
    (∀ (load : Except String Model) (model : Model) (c : AIClient)
      (post : FormData) (o : Obs) (pred : ℚ) (e : String),
      parseForm post = .ok o → predictStep model o = .ok pred →
      c (buildPrompt o pred) = .error e →
      (predict_yield load (some c)
          { model := some model, load_error := none } .POST post).2 =
        { prediction := some pred,
          recommendations := some (_local_recommendations o.region o.crop
            o.soil_type o.rainfall o.temperature o.fertilizer_used
            o.irrigation_used o.weather o.days_to_harvest pred),
          error_message := none }) := by
  refine ⟨fun prompt fallback => rfl, ?_, ?_⟩
  · intro c prompt fallback e h
    simp [recommendStep, h]
  · intro load model c post o pred e h1 h2 h3
    have hg : getModel load { model := some model, load_error := none } =
        ({ model := some model, load_error := none }, (some model, none),
         false) := rfl
    simp [predict_yield, hg, h1, h2, recommendStep, h3]

/-- Witness for C7: a client that always raises leaves the heuristic text in
place, both at the recommendation branch and end to end. -/
theorem recommend_fallback_witness :
    recommendStep none "p" "fb" = ("fb", 0) ∧
    recommendStep (some fun _ => .error "connection refused") "p" "fb" =
      ("fb", 1) ∧
    (predict_yield (.ok fun _ => .ok [7])
        (some fun _ => .error "connection refused")
        { model := some fun _ => .ok [7], load_error := none } .POST
        { region := some "North", crop := some "Wheat",
          soil_type := some "Loam", rainfall := some "300",
          temperature := some "22", fertilizer_used := some "Yes",
          irrigation_used := some "No", weather := some "Sunny",
          days_to_harvest := some "90" }).2 =
      { prediction := some (pyRound2 7),
        recommendations := some (_local_recommendations (some "North")
          (some "Wheat") (some "Loam") 300 22 true false (some "Sunny") 90
          (pyRound2 7)),
        error_message := none } :=
  ⟨recommend_fallback_on_missing_client_or_failure.1 "p" "fb",
   recommend_fallback_on_missing_client_or_failure.2.1 _ "p" "fb"
     "connection refused" rfl,
   recommend_fallback_on_missing_client_or_failure.2.2 _ _ _ _
     { region := some "North", crop := some "Wheat", soil_type := some "Loam",
       rainfall := 300, temperature := 22, fertilizer_used := true,
       irrigation_used := false, weather := some "Sunny",
       days_to_harvest := 90 } (pyRound2 7) "connection refused"
     parseForm_example rfl rfl⟩

/-- C8: a model exception on a parseable POST is caught at the request
boundary: the handler returns normally with the exception text in the single
error message and nothing else set. -/
theorem model_exception_caught (load : Except String Model)
    (client : Option AIClient) (model : Model) (post : FormData) (o : Obs)
    (e : String) (h1 : parseForm post = .ok o)
    (h2 : model [buildRow o] = .error e) :
    predict_yield load client { model := some model, load_error := none }
        .POST post =
      ({ model := some model, load_error := none },
       { prediction := none, recommendations := none,
         error_message := some ("Error: " ++ e) }) := by
  have hg : getModel load { model := some model, load_error := none } =
      ({ model := some model, load_error := none }, (some model, none),
       false) := rfl
  have hp : predictStep model o = .error e := by simp [predictStep, h2]
  simp [predict_yield, hg, h1, hp]

/-- Witness for C8: a model raising an unknown-category error turns into the
error response on the example form. -/
theorem model_exception_caught_witness :
    predict_yield (.ok fun _ => .error "Found unknown categories")
      none
      { model := some fun _ => .error "Found unknown categories",
        load_error := none } .POST
      { region := some "North", crop := some "Wheat", soil_type := some "Loam",
        rainfall := some "300", temperature := some "22",
        fertilizer_used := some "Yes", irrigation_used := some "No",
        weather := some "Sunny", days_to_harvest := some "90" } =
      ({ model := some fun _ => .error "Found unknown categories",
         load_error := none },
       { prediction := none, recommendations := none,
         error_message := some ("Error: " ++ "Found unknown categories") }) :=
  model_exception_caught _ none _ _
    { region := some "North", crop := some "Wheat", soil_type := some "Loam",
      rainfall := 300, temperature := 22, fertilizer_used := true,
      irrigation_used := false, weather := some "Sunny",
      days_to_harvest := 90 } "Found unknown categories" parseForm_example rfl

/-- With a cached model in the loader state, every response is either empty or
an error with both results null, or carries both a prediction and
recommendation text with no error. Shared case analysis for C9 and C10. -/
lemma response_cases_cached (load : Except String Model)
    (client : Option AIClient) (mo : Model) (method : Method)
    (post : FormData) :
    ((predict_yield load client { model := some mo, load_error := none }
        method post).2.prediction = none ∧
     (predict_yield load client { model := some mo, load_error := none }
        method post).2.recommendations = none) ∨
    ((predict_yield load client { model := some mo, load_error := none }
        method post).2.error_message = none ∧
     ∃ p rc,
       (predict_yield load client { model := some mo, load_error := none }
          method post).2.prediction = some p ∧
       (predict_yield load client { model := some mo, load_error := none }
          method post).2.recommendations = some rc) := by
  have hg : getModel load { model := some mo, load_error := none } =
      ({ model := some mo, load_error := none }, (some mo, none), false) := rfl
  cases method with
  | GET => exact Or.inl ⟨rfl, rfl⟩
  | POST =>
    rcases hp : parseForm post with e | o
    · refine Or.inl ⟨?_, ?_⟩ <;> simp [predict_yield, hg, hp]
    · rcases hq : predictStep mo o with e | pred
      · refine Or.inl ⟨?_, ?_⟩ <;> simp [predict_yield, hg, hp, hq]
      · right
        simp [predict_yield, hg, hp, hq]

/-- Every response of the handler, from any loader state, is either a response
with both results null or a success with both results set and no error. -/
lemma response_cases (load : Except String Model) (client : Option AIClient)
    (st : LoaderState) (method : Method) (post : FormData) :
    ((predict_yield load client st method post).2.prediction = none ∧
     (predict_yield load client st method post).2.recommendations = none) ∨
    ((predict_yield load client st method post).2.error_message = none ∧
     ∃ p rc, (predict_yield load client st method post).2.prediction = some p ∧
       (predict_yield load client st method post).2.recommendations = some rc) := by
  obtain ⟨m, err⟩ := st
  rcases err with _ | e
  · rcases m with _ | mo
    · rcases load with e | mdl
      · exact Or.inl ⟨rfl, rfl⟩
      · have heq : (predict_yield (.ok mdl) client
            { model := none, load_error := none } method post).2 =
            (predict_yield (.ok mdl) client
              { model := some mdl, load_error := none } method post).2 := rfl
        rw [heq]
        exact response_cases_cached (.ok mdl) client mdl method post
    · exact response_cases_cached load client mo method post
  · rcases m with _ | mo <;> exact Or.inl ⟨rfl, rfl⟩

/-- C9: an error response never exposes a partial result: whenever the
rendered error message is set (load failure, parse failure or prediction
failure), both the prediction and the recommendations are null. -/
theorem error_response_no_partial_result (load : Except String Model)
    (client : Option AIClient) (st : LoaderState) (method : Method)
    (post : FormData) (msg : String)
    (h : (predict_yield load client st method post).2.error_message =
      some msg) :
    (predict_yield load client st method post).2.prediction = none ∧
    (predict_yield load client st method post).2.recommendations = none := by
  rcases response_cases load client st method post with h1 | h1
  · exact h1
  · rw [h1.1] at h
    cases h

/-- Witness for C9: the load-failure response carries the error message and
null results. -/
theorem error_response_no_partial_result_witness :
    (predict_yield (.error "boom") none initState .GET
        { region := none, crop := none, soil_type := none, rainfall := none,
          temperature := none, fertilizer_used := none, irrigation_used := none,
          weather := none, days_to_harvest := none }).2.prediction = none ∧
    (predict_yield (.error "boom") none initState .GET
        { region := none, crop := none, soil_type := none, rainfall := none,
          temperature := none, fertilizer_used := none, irrigation_used := none,
          weather := none, days_to_harvest := none }).2.recommendations =
      none :=
  error_response_no_partial_result (.error "boom") none initState .GET
    { region := none, crop := none, soil_type := none, rainfall := none,
      temperature := none, fertilizer_used := none, irrigation_used := none,
      weather := none, days_to_harvest := none } ("Model load error: " ++ "boom")
    rfl

/-- C10: a response carrying a prediction always carries recommendation text:
every control path that sets the prediction also sets recommendations before
rendering. -/
theorem prediction_implies_recommendations (load : Except String Model)
    (client : Option AIClient) (st : LoaderState) (method : Method)
    (post : FormData) (p : ℚ)
    (h : (predict_yield load client st method post).2.prediction = some p) :
    ∃ rc, (predict_yield load client st method post).2.recommendations =
      some rc := by
  rcases response_cases load client st method post with h1 | h1
  · rw [h1.1] at h
    cases h
  · obtain ⟨-, q, rc, hp, hr⟩ := h1
    exact ⟨rc, hr⟩

/-- Witness for C10: the end-to-end success produces a prediction together
with recommendation text. -/
theorem prediction_implies_recommendations_witness :
    ∃ rc, (predict_yield (.ok fun _ => .ok [7]) none initState .POST
        { region := some "North", crop := some "Wheat",
          soil_type := some "Loam", rainfall := some "300",
          temperature := some "22", fertilizer_used := some "Yes",
          irrigation_used := some "No", weather := some "Sunny",
          days_to_harvest := some "90" }).2.recommendations = some rc :=
  prediction_implies_recommendations (.ok fun _ => .ok [7]) none initState
    .POST
    { region := some "North", crop := some "Wheat", soil_type := some "Loam",
      rainfall := some "300", temperature := some "22",
      fertilizer_used := some "Yes", irrigation_used := some "No",
      weather := some "Sunny", days_to_harvest := some "90" } (pyRound2 7)
    rfl

end CropYield
